import Mathlib

/-!
Verification development for the Twizy LiFePO4 BMS configuration
(KlausBMS_config.h) and the algorithmic core that the accompanying
specification reconstructs around it.  The repository ships only the
configuration header; the control code it parameterizes is described by
the specification.  Constants below are transcribed from the header;
algorithmic definitions carry a doc comment starting with
Modelled from the spec, naming what is missing from the sources.
All physical quantities are modelled as exact rationals.
-/

namespace TwizyBMS

/-- Maximum charge current [A] at 20 degC and higher (config line 60). -/
def MAX_CHARGE_CURRENT : ℚ := 35

/-- Maximum charge current [A] at 0 degC (config line 62). -/
def MAX_CHARGE_CURRENT_0C : ℚ := 5

/-- Maximum driving power limit [W] at 20 degC and higher (config line 75). -/
def MAX_DRIVE_POWER : ℚ := 10000

/-- Maximum recuperation power limit [W] at 20 degC and higher (config line 76). -/
def MAX_RECUP_POWER : ℚ := 3000

/-- Maximum driving power limit [W] at 0 degC (config line 78). -/
def MAX_DRIVE_POWER_0C : ℚ := 7000

/-- Maximum recuperation power limit [W] at 0 degC (config line 79). -/
def MAX_RECUP_POWER_0C : ℚ := 1000

/-- Drive power cutback upper SOC knee [%] (config line 84). -/
def DRV_CUTBACK_SOC1 : ℚ := 50

/-- Drive power cutback lower SOC knee [%] (config line 85). -/
def DRV_CUTBACK_SOC2 : ℚ := 25

/-- Drive power cutback level at the lower knee [%] (config line 86). -/
def DRV_CUTBACK_LVL2 : ℚ := 70

/-- Charge power cutback SOC threshold [%] (config line 90). -/
def CHG_CUTBACK_SOC : ℚ := 90

/-- Charger temperature at which charge derating starts [degC] (config line 93). -/
def CHG_CUTBACK_TEMP : ℚ := 50

/-- Charger temperature at which charge power reaches zero [degC] (config line 94). -/
def CHG_CUTBACK_TEMPMAX : ℚ := 65

/-- Number of cells (config line 102). -/
def CELL_COUNT : Nat := 16

/-- Minimum cell voltage while discharging [V] (config line 105). -/
def VMIN_DRV : ℚ := 2.4

/-- Maximum cell voltage while discharging [V] (config line 106). -/
def VMAX_DRV : ℚ := 3.5

/-- Minimum cell voltage while charging [V] (config line 109). -/
def VMIN_CHG : ℚ := 2.3

/-- Maximum cell voltage while charging [V] (config line 110). -/
def VMAX_CHG : ℚ := 3.5

/-- Voltage smoothing window [100ms samples] (config line 113). -/
def SMOOTH_VOLT : ℚ := 4

/-- Port scaling: volts per ADC count (config line 116). -/
def VPORT : ℚ := 5 / 1024

/-- Voltage divider ratio (config line 117). -/
def VDIV (r1 r2 : ℚ) : ℚ := (r1 + r2) / r2

/-- Per-cell voltage divider scaling table (config lines 122-140).
The first cell is connected directly, hence scale 1. -/
def SCALE_VOLT : List ℚ :=
  [ 1
  , VDIV 24 47 * 1.514
  , VDIV 62 47 * 1.162
  , VDIV 100 47 * 1.038
  , VDIV 150 47 * 1.037
  , VDIV 180 47 * 1.204
  , VDIV 220 47 * 1.129
  , VDIV 240 47 * 1.009
  , VDIV 300 47 * 1.059
  , VDIV 330 47 * 1.0025
  , VDIV 360 47 * 1.0899
  , VDIV 390 47 * 1.0459
  , VDIV 430 47 * 1.0166
  , VDIV 470 47 * 1.0179
  , VDIV 510 47 * 1.0675
  , VDIV 560 47 * 1.0935 ]

/-- Cell voltage spread warning threshold [V] (config line 144). -/
def VOLT_DIFF_WARN : ℚ := 0.2

/-- Cell voltage spread error threshold [V] (config line 145). -/
def VOLT_DIFF_ERROR : ℚ := 0.3

/-- Cell voltage spread shutdown threshold [V] (config line 146). -/
def VOLT_DIFF_SHUTDOWN : ℚ := 0.4

/-- SOC smoothing window, adaption to lower value (config line 149). -/
def SMOOTH_SOC_DOWN : ℚ := 60

/-- SOC smoothing window, adaption to higher value while driving (config line 150). -/
def SMOOTH_SOC_UP_DRV : ℚ := 30

/-- SOC smoothing window, adaption to higher value while charging (config line 151). -/
def SMOOTH_SOC_UP_CHG : ℚ := 10

/-- Current sensor offset voltage (config line 169). -/
def OFFSET_VOLTAGE : ℚ := 1.8436

/-- Pack current polarity in drive mode (config line 172). -/
def CURR_POLARITY_DRV : ℤ := -1

/-- Pack current polarity in charge mode (config line 173). -/
def CURR_POLARITY_CHG : ℤ := -1

/-- Nominal battery capacity [Ah] (config line 176). -/
def CAP_NOMINAL_AH : ℚ := 177

/-- Capacity adjustment smoothing window (config line 179). -/
def SMOOTH_CAP : ℚ := 200

/-- Hybrid SOC: prioritize voltage based SOC above this [%] (config line 187). -/
def SOC_VOLT_PRIO_ABOVE : ℚ := 90

/-- Hybrid SOC: prioritize voltage based SOC below this [%] (config line 188). -/
def SOC_VOLT_PRIO_BELOW : ℚ := 20

/-- Temperature analog scaling [degC per V] (config line 201). -/
def SCALE_TEMP : ℚ := 100 / 1

/-- Temperature base offset [degC] (config line 202). -/
def BASE_TEMP : ℚ := 2

/-- Temperature smoothing window [samples] (config line 205). -/
def SMOOTH_TEMP : ℚ := 30

/-- Absolute temperature warning threshold [degC] (config line 208). -/
def TEMP_WARN : ℚ := 40

/-- Absolute temperature error threshold [degC] (config line 209). -/
def TEMP_ERROR : ℚ := 45

/-- Absolute temperature shutdown threshold [degC] (config line 210). -/
def TEMP_SHUTDOWN : ℚ := 50

/-- Front/rear temperature difference warning threshold [degC] (config line 213). -/
def TEMP_DIFF_WARN : ℚ := 3

/-- Front/rear temperature difference error threshold [degC] (config line 214). -/
def TEMP_DIFF_ERROR : ℚ := 5

/-- Front/rear temperature difference shutdown threshold [degC] (config line 215). -/
def TEMP_DIFF_SHUTDOWN : ℚ := 10

/-- Operating direction of current flow (spec glossary: drive vs charge mode). -/
inductive Mode where
  | driving
  | charging
deriving DecidableEq, Repr

/-- Ordered severity enumeration of the safety state machine (spec section 3). -/
inductive SafetyTier where
  | normal
  | warn
  | error
  | shutdown
deriving DecidableEq, Repr

/-- Numeric severity of a tier, for the maximum-severity reduction. -/
def SafetyTier.sev : SafetyTier → Nat
  | .normal => 0
  | .warn => 1
  | .error => 2
  | .shutdown => 3

/-- Maximum of two tiers by severity. -/
def tmax (a b : SafetyTier) : SafetyTier :=
  if a.sev ≤ b.sev then b else a

/-- Modelled from the spec: the tier classifier missing from the sources.
A smoothed signal is compared against three ascending thresholds
(warn, error, shutdown); meeting a threshold yields at least that tier
(spec section 4.4; the section 8 scenarios place a signal exactly at the
shutdown threshold in the SHUTDOWN tier). -/
def classify3 (x w e sd : ℚ) : SafetyTier :=
  if sd ≤ x then .shutdown
  else if e ≤ x then .error
  else if w ≤ x then .warn
  else .normal

/-- Modelled from the spec: voltage spread alarm family (spec section 4.4),
driven by the max-minus-min cell voltage against VOLT_DIFF thresholds. -/
def voltSpreadTier (spread : ℚ) : SafetyTier :=
  classify3 spread VOLT_DIFF_WARN VOLT_DIFF_ERROR VOLT_DIFF_SHUTDOWN

/-- Mode-dependent minimum safe cell voltage (config lines 105 and 109). -/
def vminOf : Mode → ℚ
  | .driving => VMIN_DRV
  | .charging => VMIN_CHG

/-- Mode-dependent maximum safe cell voltage (config lines 106 and 110). -/
def vmaxOf : Mode → ℚ
  | .driving => VMAX_DRV
  | .charging => VMAX_CHG

/-- Modelled from the spec: absolute cell voltage alarm family
(spec section 4.4), breached when any cell leaves the mode safe range.
The spec assigns no explicit severity level to a range breach; the
conservative SHUTDOWN reading is used. -/
def absVoltTier (m : Mode) (vmin vmax : ℚ) : SafetyTier :=
  if vmin < vminOf m ∨ vmaxOf m < vmax then .shutdown else .normal

/-- Modelled from the spec: absolute temperature alarm family
(spec section 4.4), driven by the max of front and rear sensor. -/
def absTempTier (t : ℚ) : SafetyTier :=
  classify3 t TEMP_WARN TEMP_ERROR TEMP_SHUTDOWN

/-- Modelled from the spec: front/rear temperature difference alarm family
(spec section 4.4). -/
def tempDiffTier (d : ℚ) : SafetyTier :=
  classify3 d TEMP_DIFF_WARN TEMP_DIFF_ERROR TEMP_DIFF_SHUTDOWN

/-- Modelled from the spec: the generic smoothing filter missing from the
sources (spec section 4.2), an exponential average with windowSize
effective samples; window 1 is passthrough. -/
def smooth (prev sample w : ℚ) : ℚ :=
  prev + (sample - prev) / w

/-- Clamp a value into the interval from lo to hi. -/
def clampQ (lo hi x : ℚ) : ℚ :=
  max lo (min x hi)

/-- Minimum of a voltage list (0 for the empty pack, which never occurs). -/
def listMin : List ℚ → ℚ
  | [] => 0
  | x :: xs => xs.foldl min x

/-- Maximum of a voltage list (0 for the empty pack, which never occurs). -/
def listMax : List ℚ → ℚ
  | [] => 0
  | x :: xs => xs.foldl max x

/-- Arithmetic mean of a voltage list. -/
def listMean (l : List ℚ) : ℚ :=
  l.sum / (l.length : ℚ)

/-- Modelled from the spec: the voltage-derived SOC missing from the
sources, a monotone map of the mean cell voltage over the configured
mode voltage range onto 0..100 percent (spec section 4.3). -/
def voltSOC (m : Mode) (v : ℚ) : ℚ :=
  clampQ 0 100 ((v - vminOf m) / (vmaxOf m - vminOf m) * 100)

/-- Mode-dependent pack current polarity (config lines 172-173). -/
def polarityOf : Mode → ℤ
  | .driving => CURR_POLARITY_DRV
  | .charging => CURR_POLARITY_CHG

/-- Modelled from the spec: the coulomb integration step missing from the
sources. SOC decreases by current times wall-clock delta over capacity
times 3600, with the mode polarity applied to the measured current, and
is clamped to 0..100 after the update (spec section 4.3). -/
def coulombStep (soc curr dt cap : ℚ) (m : Mode) : ℚ :=
  clampQ 0 100 (soc - ((polarityOf m : ℚ) * curr * dt) / (cap * 3600))

/-- Modelled from the spec: the hybrid blend policy missing from the
sources. Outside the band given by SOC_VOLT_PRIO_BELOW and
SOC_VOLT_PRIO_ABOVE of the previous blended SOC, the voltage-derived SOC
dominates; inside the band the coulomb count is authoritative
(spec section 4.3). -/
def blendTarget (prevBlend vS cS : ℚ) : ℚ :=
  if SOC_VOLT_PRIO_ABOVE < prevBlend ∨ prevBlend < SOC_VOLT_PRIO_BELOW then vS else cS

/-- Modelled from the spec: mode-dependent asymmetric SOC smoothing window
selection missing from the sources (spec section 4.2, config lines 149-151). -/
def socWindow (m : Mode) (prevBlend target : ℚ) : ℚ :=
  if target < prevBlend then SMOOTH_SOC_DOWN
  else match m with
    | .driving => SMOOTH_SOC_UP_DRV
    | .charging => SMOOTH_SOC_UP_CHG

/-- Modelled from the spec: the drive power cutback curve missing from the
sources. 100 percent at and above DRV_CUTBACK_SOC1, linear down to
DRV_CUTBACK_LVL2 percent at DRV_CUTBACK_SOC2, linear down to 0 percent
at empty (spec section 4.5, config lines 84-86). -/
def drvCutback (soc : ℚ) : ℚ :=
  if DRV_CUTBACK_SOC1 ≤ soc then 100
  else if DRV_CUTBACK_SOC2 ≤ soc then
    DRV_CUTBACK_LVL2 +
      (soc - DRV_CUTBACK_SOC2) * (100 - DRV_CUTBACK_LVL2) / (DRV_CUTBACK_SOC1 - DRV_CUTBACK_SOC2)
  else soc * DRV_CUTBACK_LVL2 / DRV_CUTBACK_SOC2

/-- Modelled from the spec: the charge power cutback by SOC missing from
the sources. 100 percent up to CHG_CUTBACK_SOC, then linear down to
0 percent at full (spec section 4.5, config line 90). -/
def chgCutbackBySOC (soc : ℚ) : ℚ :=
  if soc ≤ CHG_CUTBACK_SOC then 100
  else (100 - soc) * 100 / (100 - CHG_CUTBACK_SOC)

/-- Modelled from the spec: the charge power cutback by charger
temperature missing from the sources. 100 percent below the start-derate
temperature, linear down to 0 percent at the maximum temperature
(spec section 4.5, config lines 93-94). -/
def chgCutbackByTemp (t : ℚ) : ℚ :=
  if t ≤ CHG_CUTBACK_TEMP then 100
  else if CHG_CUTBACK_TEMPMAX ≤ t then 0
  else (CHG_CUTBACK_TEMPMAX - t) * 100 / (CHG_CUTBACK_TEMPMAX - CHG_CUTBACK_TEMP)

/-- Modelled from the spec: the two-point temperature interpolation
missing from the sources. The value is v0 at and below 0 degC, v20 at
and above 20 degC, and the exact linear interpolation between the two
calibration points in between (spec section 4.5). -/
def interpTemp (v0 v20 t : ℚ) : ℚ :=
  if t ≤ 0 then v0
  else if 20 ≤ t then v20
  else v0 + (v20 - v0) * t / 20

/-- Power ceilings published to the vehicle interface each tick (spec section 3). -/
structure PowerEnvelope where
  maxChargeCurrent : ℚ
  maxDrivePower : ℚ
  maxRecupPower : ℚ
deriving DecidableEq, Repr

/-- Modelled from the spec: the power derating engine missing from the
sources. Each ceiling is the temperature-interpolated base value times
the applicable SOC or temperature cutback fraction, and all three are
forced to zero under an overall SHUTDOWN tier (spec section 4.5). The
ERROR-tier reduction policy is an open integration point in the spec and
is not modelled; the spec gives no SOC cutback for recuperation. -/
def derate (tier : SafetyTier) (soc t : ℚ) : PowerEnvelope :=
  if tier = SafetyTier.shutdown then ⟨0, 0, 0⟩
  else
    ⟨interpTemp MAX_CHARGE_CURRENT_0C MAX_CHARGE_CURRENT t
        * (chgCutbackBySOC soc / 100) * (chgCutbackByTemp t / 100),
     interpTemp MAX_DRIVE_POWER_0C MAX_DRIVE_POWER t * (drvCutback soc / 100),
     interpTemp MAX_RECUP_POWER_0C MAX_RECUP_POWER t⟩

/-- Error taxonomy of the channel reader (spec section 7). -/
inductive BMSError where
  | invalidChannel
deriving DecidableEq, Repr

/-- Modelled from the spec: the calibrated channel reader missing from the
sources. A raw ADC count is converted to a physical value by
(rawCount times unitsPerCount minus baseOffset) times the per-channel
scale factor from the fixed SCALE_VOLT table; a channel identity outside
the configured range fails with invalidChannel (spec section 4.1). -/
def readChannel (ch : Nat) (raw base : ℚ) : Except BMSError ℚ :=
  match SCALE_VOLT.get? ch with
  | some k => Except.ok ((raw * VPORT - base) * k)
  | none => Except.error BMSError.invalidChannel

/-- Input sample vector of one tick: calibrated per-cell voltages, the two
temperature sensors, the pack current, the wall-clock delta and the
operating mode (spec section 6; the calibration itself is the pure
readChannel above, so the tick consumes physical values). -/
structure RawTick where
  cellSamples : List ℚ
  tempFSample : ℚ
  tempRSample : ℚ
  currSample : ℚ
  dt : ℚ
  mode : Mode
deriving DecidableEq, Repr

/-- Singleton pack state threaded through the tick pipeline
(spec sections 3 and 9). Capacity learning contributes no per-tick
change in this model; CapacityEstimate is read-only to the estimator. -/
structure PackState where
  cellVolts : List ℚ
  tempF : ℚ
  tempR : ℚ
  coulSOC : ℚ
  blendSOC : ℚ
  cap : ℚ
deriving DecidableEq, Repr

/-- Smoothed per-cell voltages of a tick (spec sections 4.2 and 5). -/
def tickCells (s : PackState) (i : RawTick) : List ℚ :=
  (s.cellVolts.zip i.cellSamples).map fun p => smooth p.1 p.2 SMOOTH_VOLT

/-- Smoothed front temperature of a tick. -/
def tickTempF (s : PackState) (i : RawTick) : ℚ :=
  smooth s.tempF i.tempFSample SMOOTH_TEMP

/-- Smoothed rear temperature of a tick. -/
def tickTempR (s : PackState) (i : RawTick) : ℚ :=
  smooth s.tempR i.tempRSample SMOOTH_TEMP

/-- Ambient temperature of a tick: the max of front and rear sensor. -/
def tickAmb (s : PackState) (i : RawTick) : ℚ :=
  max (tickTempF s i) (tickTempR s i)

/-- Cell voltage spread (max minus min) of a tick. -/
def tickSpread (s : PackState) (i : RawTick) : ℚ :=
  listMax (tickCells s i) - listMin (tickCells s i)

/-- Coulomb-counted SOC after the integration step of a tick.
The configuration defines no smoothing window for current, so the
current sample enters the integration unsmoothed. -/
def tickCoul (s : PackState) (i : RawTick) : ℚ :=
  coulombStep s.coulSOC i.currSample i.dt s.cap i.mode

/-- Voltage-derived SOC of a tick, from the mean smoothed cell voltage. -/
def tickVoltSOC (s : PackState) (i : RawTick) : ℚ :=
  voltSOC i.mode (listMean (tickCells s i))

/-- Blend target of a tick (spec section 4.3). -/
def tickTarget (s : PackState) (i : RawTick) : ℚ :=
  blendTarget s.blendSOC (tickVoltSOC s i) (tickCoul s i)

/-- Blended SOC of a tick: the target smoothed with the mode window and
clamped to 0..100 (spec section 4.3). -/
def tickBlend (s : PackState) (i : RawTick) : ℚ :=
  clampQ 0 100 (smooth s.blendSOC (tickTarget s i) (socWindow i.mode s.blendSOC (tickTarget s i)))

/-- Overall safety tier of a tick: the maximum severity across the four
alarm families, recomputed from the smoothed signals of this tick alone
(spec section 4.4). -/
def tickTier (s : PackState) (i : RawTick) : SafetyTier :=
  tmax (tmax (voltSpreadTier (tickSpread s i))
             (absVoltTier i.mode (listMin (tickCells s i)) (listMax (tickCells s i))))
       (tmax (absTempTier (tickAmb s i))
             (tempDiffTier |tickTempF s i - tickTempR s i|))

/-- Pack state after one tick of the pipeline. -/
def tickState (s : PackState) (i : RawTick) : PackState :=
  ⟨tickCells s i, tickTempF s i, tickTempR s i, tickCoul s i, tickBlend s i, s.cap⟩

/-- PowerEnvelope emitted by one tick of the pipeline. -/
def tickEnv (s : PackState) (i : RawTick) : PowerEnvelope :=
  derate (tickTier s i) (tickBlend s i) (tickAmb s i)

/-- One full tick of the pipeline: read and smooth, estimate SOC,
evaluate safety, derate power (spec section 2). -/
def tick (s : PackState) (i : RawTick) : PackState × PowerEnvelope :=
  (tickState s i, tickEnv s i)

/-- Concrete fixture: a healthy pack, all sixteen cells at 3.3 V. -/
def cellsOK : List ℚ :=
  [3.3, 3.3, 3.3, 3.3, 3.3, 3.3, 3.3, 3.3, 3.3, 3.3, 3.3, 3.3, 3.3, 3.3, 3.3, 3.3]

/-- Concrete fixture: one cell at 2.9 V against fifteen at 3.3 V, a spread
of exactly the 0.4 V shutdown threshold (spec section 8 scenario). -/
def cellsImbalanced : List ℚ :=
  [2.9, 3.3, 3.3, 3.3, 3.3, 3.3, 3.3, 3.3, 3.3, 3.3, 3.3, 3.3, 3.3, 3.3, 3.3, 3.3]

/-- Concrete fixture: steady healthy state at 25 degC and SOC 50. -/
def stNorm : PackState := ⟨cellsOK, 25, 25, 50, 50, 177⟩

/-- Concrete fixture: tick input frozen at the stNorm state values. -/
def inNorm : RawTick := ⟨cellsOK, 25, 25, 0, 0, Mode.driving⟩

/-- Concrete fixture: state holding the imbalanced cell voltages. -/
def stImbalanced : PackState := ⟨cellsImbalanced, 25, 25, 50, 50, 177⟩

/-- Concrete fixture: tick input frozen at the imbalanced cell voltages. -/
def inImbalanced : RawTick := ⟨cellsImbalanced, 25, 25, 0, 0, Mode.driving⟩

/-- Concrete fixture: healthy pack whose smoothed temperatures read 0 degC. -/
def stCold : PackState := ⟨cellsOK, 0, 0, 50, 50, 177⟩

/-- Concrete fixture: tick input with both temperature sensors at 20 degC,
cells and SOC frozen at the stCold values, wall-clock delta 0. -/
def inWarm : RawTick := ⟨cellsOK, 20, 20, 0, 0, Mode.driving⟩

/-- Concrete fixture: all sixteen cells at 2.39 V, just below the 2.4 V
drive-mode floor (zero spread, so only the absolute-voltage family fires). -/
def cellsLow : List ℚ :=
  [2.39, 2.39, 2.39, 2.39, 2.39, 2.39, 2.39, 2.39,
   2.39, 2.39, 2.39, 2.39, 2.39, 2.39, 2.39, 2.39]

/-- Concrete fixture: all sixteen cells exactly at the 2.4 V drive floor. -/
def cellsAtFloor : List ℚ :=
  [2.4, 2.4, 2.4, 2.4, 2.4, 2.4, 2.4, 2.4,
   2.4, 2.4, 2.4, 2.4, 2.4, 2.4, 2.4, 2.4]

/-- Concrete fixture: state holding the just-below-floor cell voltages. -/
def stLow : PackState := ⟨cellsLow, 25, 25, 50, 50, 177⟩

/-- Concrete fixture: tick input frozen at the just-below-floor voltages. -/
def inLow : RawTick := ⟨cellsLow, 25, 25, 0, 0, Mode.driving⟩

/-- Concrete fixture: state holding the at-floor cell voltages. -/
def stFloor : PackState := ⟨cellsAtFloor, 25, 25, 50, 50, 177⟩

/-- Concrete fixture: tick input frozen at the at-floor cell voltages. -/
def inFloor : RawTick := ⟨cellsAtFloor, 25, 25, 0, 0, Mode.driving⟩

/-- Smoothing a value toward itself is the identity, for any window. -/
lemma smooth_self (p w : ℚ) : smooth p p w = p := by
  simp [smooth]

/-- Smoothing every cell toward its own stored value leaves the list unchanged. -/
lemma map_smooth_self (w : ℚ) (l : List ℚ) :
    (l.zip l).map (fun p => smooth p.1 p.2 w) = l := by
  induction l with
  | nil => rfl
  | cons a t ih => simp [List.zip_cons_cons, smooth_self, ih]

/-- The clamp to 0..100 is bounded below by 0. -/
lemma clampQ_nonneg (x : ℚ) : 0 ≤ clampQ 0 100 x :=
  le_max_left 0 _

/-- The clamp to 0..100 is bounded above by 100. -/
lemma clampQ_le_hundred (x : ℚ) : clampQ 0 100 x ≤ 100 :=
  max_le (by norm_num) (min_le_right x 100)

/-- Clamping a value already inside the interval is the identity. -/
lemma clampQ_eq_self {lo hi x : ℚ} (h1 : lo ≤ x) (h2 : x ≤ hi) :
    clampQ lo hi x = x := by
  rw [clampQ, min_eq_left h2, max_eq_right h1]

/-- Severity of the binary tier maximum is the maximum of severities. -/
lemma sev_tmax (a b : SafetyTier) : (tmax a b).sev = max a.sev b.sev := by
  unfold tmax
  split <;> omega

/-- Below the warning threshold the classifier yields NORMAL. -/
lemma classify3_lt_warn {x w e sd : ℚ} (h : x < w) (hwe : w ≤ e) (hes : e ≤ sd) :
    classify3 x w e sd = SafetyTier.normal := by
  unfold classify3
  rw [if_neg (by linarith), if_neg (by linarith), if_neg (by linarith)]

/-- Below the error threshold the classifier yields at most WARN. -/
lemma classify3_lt_err {x w e sd : ℚ} (h : x < e) (hes : e ≤ sd) :
    (classify3 x w e sd).sev ≤ SafetyTier.warn.sev := by
  unfold classify3
  rw [if_neg (by linarith), if_neg (by linarith)]
  split <;> simp [SafetyTier.sev]

/-- Below the shutdown threshold the classifier yields at most ERROR. -/
lemma classify3_lt_sd {x w e sd : ℚ} (h : x < sd) :
    (classify3 x w e sd).sev ≤ SafetyTier.error.sev := by
  unfold classify3
  rw [if_neg (by linarith)]
  split
  · simp [SafetyTier.sev]
  · split <;> simp [SafetyTier.sev]

/-- The absolute-voltage family is two-valued: NORMAL or SHUTDOWN only. -/
lemma absVoltTier_two_valued (m : Mode) (vmin vmax : ℚ) :
    absVoltTier m vmin vmax = SafetyTier.normal ∨
      absVoltTier m vmin vmax = SafetyTier.shutdown := by
  unfold absVoltTier
  split_ifs <;> simp

/-- The absolute-voltage family is NORMAL exactly when both pack extremes
lie inside the mode safe range. -/
lemma absVoltTier_eq_normal_iff (m : Mode) (vmin vmax : ℚ) :
    absVoltTier m vmin vmax = SafetyTier.normal ↔
      vminOf m ≤ vmin ∧ vmax ≤ vmaxOf m := by
  unfold absVoltTier
  split_ifs with h
  · constructor
    · intro hh
      exact absurd hh (by simp)
    · rintro ⟨h1, h2⟩
      rcases h with h | h
      · exact absurd h (not_lt.mpr h1)
      · exact absurd h (not_lt.mpr h2)
  · simp only [not_or, not_lt] at h
    exact iff_of_true rfl h

/-- The blended SOC bounds survive any further run of ticks. -/
lemma foldl_blend_bounds (l : List RawTick) :
    ∀ s : PackState, 0 ≤ s.blendSOC → s.blendSOC ≤ 100 →
      0 ≤ (List.foldl tickState s l).blendSOC ∧ (List.foldl tickState s l).blendSOC ≤ 100 := by
  induction l with
  | nil => exact fun s h1 h2 => ⟨h1, h2⟩
  | cons a t ih =>
      intro s _ _
      exact ih (tickState s a) (clampQ_nonneg _) (clampQ_le_hundred _)

/-- C1: for every SOC value and every temperature value, the derating
engine forces all three power ceilings of the PowerEnvelope to zero under
an overall SHUTDOWN tier; in particular, whenever the overall safety tier
computed for a tick is SHUTDOWN, the PowerEnvelope emitted that tick has
maxChargeCurrent = 0, maxDrivePower = 0 and maxRecupPower = 0. -/
theorem shutdown_zeroes_envelope (soc t : ℚ) (s : PackState) (i : RawTick) :
    derate SafetyTier.shutdown soc t = ⟨0, 0, 0⟩ ∧
      (tickTier s i = SafetyTier.shutdown →
        (tickEnv s i).maxChargeCurrent = 0 ∧ (tickEnv s i).maxDrivePower = 0 ∧
          (tickEnv s i).maxRecupPower = 0) := by
  constructor
  · simp [derate]
  · intro h
    simp [tickEnv, h, derate]

/-- Witness for C1: a pack with one cell at 2.9 V against 3.3 V, a spread
at the 0.4 V shutdown threshold, yields the SHUTDOWN tier and an all-zero
PowerEnvelope. -/
theorem shutdown_zeroes_envelope_witness :
    tickTier stImbalanced inImbalanced = SafetyTier.shutdown ∧
      (tickEnv stImbalanced inImbalanced).maxChargeCurrent = 0 ∧
      (tickEnv stImbalanced inImbalanced).maxDrivePower = 0 ∧
      (tickEnv stImbalanced inImbalanced).maxRecupPower = 0 := by
  have h : tickTier stImbalanced inImbalanced = SafetyTier.shutdown := by
    norm_num [tickTier, tickSpread, tickCells, tickAmb, tickTempF, tickTempR, stImbalanced,
      inImbalanced, cellsImbalanced, smooth, SMOOTH_VOLT, SMOOTH_TEMP, listMin, listMax,
      voltSpreadTier, absVoltTier, absTempTier, tempDiffTier, classify3, tmax, SafetyTier.sev,
      vminOf, vmaxOf, VMIN_DRV, VMAX_DRV, VOLT_DIFF_WARN, VOLT_DIFF_ERROR, VOLT_DIFF_SHUTDOWN,
      TEMP_WARN, TEMP_ERROR, TEMP_SHUTDOWN, TEMP_DIFF_WARN, TEMP_DIFF_ERROR, TEMP_DIFF_SHUTDOWN]
  exact ⟨h, (shutdown_zeroes_envelope 0 0 stImbalanced inImbalanced).2 h⟩

/-- C2: for every pack state and every finite sequence of per-tick inputs,
the blended SOC lies in [0,100] after every tick, and the coulomb-counted
SOC is clamped to [0,100] after each integration update; the bound is kept
along any further run of the pipeline. -/
theorem blended_soc_in_range (s : PackState) (i : RawTick) (rest : List RawTick) :
    (0 ≤ (tickState s i).blendSOC ∧ (tickState s i).blendSOC ≤ 100) ∧
      (0 ≤ tickCoul s i ∧ tickCoul s i ≤ 100) ∧
      (0 ≤ (List.foldl tickState (tickState s i) rest).blendSOC ∧
        (List.foldl tickState (tickState s i) rest).blendSOC ≤ 100) := by
  refine ⟨⟨clampQ_nonneg _, clampQ_le_hundred _⟩, ⟨clampQ_nonneg _, clampQ_le_hundred _⟩, ?_⟩
  exact foldl_blend_bounds rest (tickState s i) (clampQ_nonneg _) (clampQ_le_hundred _)

/-- Counterexample for C3: the absolute-voltage family is not compared
against three ascending thresholds. At concrete adjacent inputs it jumps
straight from NORMAL (all cells at the 2.4 V drive floor) to SHUTDOWN
(all cells at 2.39 V, a 0.01 V breach), with no WARN or ERROR step in
between, and the overall tick tier makes the same jump while the three
ladder families stay NORMAL. -/
theorem abs_volt_family_skips_tiers :
    absVoltTier Mode.driving 2.39 2.39 = SafetyTier.shutdown ∧
      absVoltTier Mode.driving 2.4 2.4 = SafetyTier.normal ∧
      tickTier stLow inLow = SafetyTier.shutdown ∧
      voltSpreadTier (tickSpread stLow inLow) = SafetyTier.normal ∧
      absTempTier (tickAmb stLow inLow) = SafetyTier.normal ∧
      tempDiffTier |tickTempF stLow inLow - tickTempR stLow inLow| = SafetyTier.normal ∧
      tickTier stFloor inFloor = SafetyTier.normal := by
  refine ⟨?_, ?_, ?_, ?_, ?_, ?_, ?_⟩ <;>
    norm_num [tickTier, tickSpread, tickCells, tickAmb, tickTempF, tickTempR, stLow, inLow,
      stFloor, inFloor, cellsLow, cellsAtFloor, smooth, SMOOTH_VOLT, SMOOTH_TEMP, listMin,
      listMax, voltSpreadTier, absVoltTier, absTempTier, tempDiffTier, classify3, tmax,
      SafetyTier.sev, vminOf, vmaxOf, VMIN_DRV, VMAX_DRV, VOLT_DIFF_WARN, VOLT_DIFF_ERROR,
      VOLT_DIFF_SHUTDOWN, TEMP_WARN, TEMP_ERROR, TEMP_SHUTDOWN, TEMP_DIFF_WARN,
      TEMP_DIFF_ERROR, TEMP_DIFF_SHUTDOWN]

/-- C3 amended: on every tick the overall safety tier is the maximum
severity over the four family tiers, each a function only of the smoothed
signals of this tick; the voltage-spread, absolute-temperature and
front/rear temperature-difference families are classified against their
three ascending thresholds and a signal back below a threshold yields the
lower tier on that same tick (no hysteresis state in the state machine
itself), while the absolute-voltage family is a two-valued mode-dependent
range check: NORMAL exactly when the pack extremes lie inside the
configured safe range, SHUTDOWN otherwise, with no warn/error ladder. -/
theorem overall_tier_is_family_max (s : PackState) (i : RawTick) :
    tickTier s i =
      tmax (tmax (voltSpreadTier (tickSpread s i))
                 (absVoltTier i.mode (listMin (tickCells s i)) (listMax (tickCells s i))))
           (tmax (absTempTier (tickAmb s i))
                 (tempDiffTier |tickTempF s i - tickTempR s i|)) ∧
    (tickTier s i).sev =
      max (max (voltSpreadTier (tickSpread s i)).sev
               (absVoltTier i.mode (listMin (tickCells s i)) (listMax (tickCells s i))).sev)
          (max (absTempTier (tickAmb s i)).sev
               (tempDiffTier |tickTempF s i - tickTempR s i|).sev) ∧
    (absVoltTier i.mode (listMin (tickCells s i)) (listMax (tickCells s i)) = SafetyTier.normal ∨
      absVoltTier i.mode (listMin (tickCells s i)) (listMax (tickCells s i))
        = SafetyTier.shutdown) ∧
    (absVoltTier i.mode (listMin (tickCells s i)) (listMax (tickCells s i)) = SafetyTier.normal ↔
      vminOf i.mode ≤ listMin (tickCells s i) ∧
        listMax (tickCells s i) ≤ vmaxOf i.mode) ∧
    (tickSpread s i < VOLT_DIFF_WARN →
      voltSpreadTier (tickSpread s i) = SafetyTier.normal) ∧
    (tickSpread s i < VOLT_DIFF_ERROR →
      (voltSpreadTier (tickSpread s i)).sev ≤ SafetyTier.warn.sev) ∧
    (tickSpread s i < VOLT_DIFF_SHUTDOWN →
      (voltSpreadTier (tickSpread s i)).sev ≤ SafetyTier.error.sev) ∧
    (tickAmb s i < TEMP_WARN → absTempTier (tickAmb s i) = SafetyTier.normal) ∧
    (|tickTempF s i - tickTempR s i| < TEMP_DIFF_WARN →
      tempDiffTier |tickTempF s i - tickTempR s i| = SafetyTier.normal) := by
  refine ⟨rfl, ?_, ?_, ?_, ?_, ?_, ?_, ?_, ?_⟩
  · rw [tickTier, sev_tmax, sev_tmax, sev_tmax]
  · exact absVoltTier_two_valued _ _ _
  · exact absVoltTier_eq_normal_iff _ _ _
  · intro h
    exact classify3_lt_warn h (by norm_num [VOLT_DIFF_WARN, VOLT_DIFF_ERROR])
      (by norm_num [VOLT_DIFF_ERROR, VOLT_DIFF_SHUTDOWN])
  · intro h
    exact classify3_lt_err h (by norm_num [VOLT_DIFF_ERROR, VOLT_DIFF_SHUTDOWN])
  · intro h
    exact classify3_lt_sd h
  · intro h
    exact classify3_lt_warn h (by norm_num [TEMP_WARN, TEMP_ERROR])
      (by norm_num [TEMP_ERROR, TEMP_SHUTDOWN])
  · intro h
    exact classify3_lt_warn h (by norm_num [TEMP_DIFF_WARN, TEMP_DIFF_ERROR])
      (by norm_num [TEMP_DIFF_ERROR, TEMP_DIFF_SHUTDOWN])

/-- Witness for C3 amended: on the healthy fixture every ladder family
signal is below its warning threshold and reports NORMAL on that same
tick, the absolute-voltage range check reports NORMAL with the pack
extremes inside the drive range, and the overall tier is the family
maximum. -/
theorem overall_tier_is_family_max_witness :
    (tickTier stNorm inNorm).sev =
      max (max (voltSpreadTier (tickSpread stNorm inNorm)).sev
               (absVoltTier inNorm.mode (listMin (tickCells stNorm inNorm))
                 (listMax (tickCells stNorm inNorm))).sev)
          (max (absTempTier (tickAmb stNorm inNorm)).sev
               (tempDiffTier |tickTempF stNorm inNorm - tickTempR stNorm inNorm|).sev) ∧
    absVoltTier inNorm.mode (listMin (tickCells stNorm inNorm))
      (listMax (tickCells stNorm inNorm)) = SafetyTier.normal ∧
    voltSpreadTier (tickSpread stNorm inNorm) = SafetyTier.normal ∧
    absTempTier (tickAmb stNorm inNorm) = SafetyTier.normal ∧
    tempDiffTier |tickTempF stNorm inNorm - tickTempR stNorm inNorm| = SafetyTier.normal := by
  have h1 : tickSpread stNorm inNorm < VOLT_DIFF_WARN := by
    norm_num [tickSpread, tickCells, stNorm, inNorm, cellsOK, smooth, SMOOTH_VOLT,
      listMin, listMax, VOLT_DIFF_WARN]
  have h2 : tickAmb stNorm inNorm < TEMP_WARN := by
    norm_num [tickAmb, tickTempF, tickTempR, stNorm, inNorm, smooth, SMOOTH_TEMP, TEMP_WARN]
  have h3 : |tickTempF stNorm inNorm - tickTempR stNorm inNorm| < TEMP_DIFF_WARN := by
    norm_num [tickTempF, tickTempR, stNorm, inNorm, smooth, SMOOTH_TEMP, TEMP_DIFF_WARN]
  have h4 : vminOf inNorm.mode ≤ listMin (tickCells stNorm inNorm) ∧
      listMax (tickCells stNorm inNorm) ≤ vmaxOf inNorm.mode := by
    norm_num [tickCells, stNorm, inNorm, cellsOK, smooth, SMOOTH_VOLT, listMin, listMax,
      vminOf, vmaxOf, VMIN_DRV, VMAX_DRV]
  exact ⟨(overall_tier_is_family_max stNorm inNorm).2.1,
    (overall_tier_is_family_max stNorm inNorm).2.2.2.1.mpr h4,
    (overall_tier_is_family_max stNorm inNorm).2.2.2.2.1 h1,
    (overall_tier_is_family_max stNorm inNorm).2.2.2.2.2.2.2.1 h2,
    (overall_tier_is_family_max stNorm inNorm).2.2.2.2.2.2.2.2 h3⟩

/-- C4: the drive-power cutback fraction is the configured piecewise-linear
curve (100 percent at and above DRV_CUTBACK_SOC1, linear to
DRV_CUTBACK_LVL2 percent at DRV_CUTBACK_SOC2, linear to 0 at empty) and is
monotone non-decreasing on [0,100]; the charge-power cutback fraction is
100 percent up to CHG_CUTBACK_SOC and monotone non-increasing above it. -/
theorem cutback_curves_piecewise_monotone (x y : ℚ) :
    (DRV_CUTBACK_SOC1 ≤ x → drvCutback x = 100) ∧
    (DRV_CUTBACK_SOC2 ≤ x → x ≤ DRV_CUTBACK_SOC1 →
      drvCutback x = DRV_CUTBACK_LVL2 +
        (x - DRV_CUTBACK_SOC2) * (100 - DRV_CUTBACK_LVL2) /
          (DRV_CUTBACK_SOC1 - DRV_CUTBACK_SOC2)) ∧
    (0 ≤ x → x ≤ DRV_CUTBACK_SOC2 → drvCutback x = x * DRV_CUTBACK_LVL2 / DRV_CUTBACK_SOC2) ∧
    (0 ≤ x → x ≤ y → y ≤ 100 → drvCutback x ≤ drvCutback y) ∧
    (x ≤ CHG_CUTBACK_SOC → chgCutbackBySOC x = 100) ∧
    (CHG_CUTBACK_SOC ≤ x → chgCutbackBySOC x = (100 - x) * 100 / (100 - CHG_CUTBACK_SOC)) ∧
    (CHG_CUTBACK_SOC ≤ x → x ≤ y → chgCutbackBySOC y ≤ chgCutbackBySOC x) := by
  simp only [drvCutback, chgCutbackBySOC, DRV_CUTBACK_SOC1, DRV_CUTBACK_SOC2,
    DRV_CUTBACK_LVL2, CHG_CUTBACK_SOC]
  refine ⟨?_, ?_, ?_, ?_, ?_, ?_, ?_⟩
  · intro h
    rw [if_pos h]
  · intro h1 h2
    split_ifs with ha <;> linarith
  · intro h1 h2
    split_ifs with ha hb <;> linarith
  · intro h0 hxy hy
    split_ifs <;> linarith
  · intro h
    rw [if_pos h]
  · intro h
    split_ifs with ha <;> linarith
  · intro h1 h2
    split_ifs <;> linarith

/-- Witness for C4: curve values at SOC 60, 30, 10 and monotonicity checks
at concrete SOC pairs, obtained by instantiating the theorem. -/
theorem cutback_curves_piecewise_monotone_witness :
    drvCutback 60 = 100 ∧
      drvCutback 30 = DRV_CUTBACK_LVL2 +
        (30 - DRV_CUTBACK_SOC2) * (100 - DRV_CUTBACK_LVL2) /
          (DRV_CUTBACK_SOC1 - DRV_CUTBACK_SOC2) ∧
      drvCutback 10 = 10 * DRV_CUTBACK_LVL2 / DRV_CUTBACK_SOC2 ∧
      drvCutback 10 ≤ drvCutback 60 ∧
      chgCutbackBySOC 50 = 100 ∧
      chgCutbackBySOC 95 = (100 - 95) * 100 / (100 - CHG_CUTBACK_SOC) ∧
      chgCutbackBySOC 95 ≤ chgCutbackBySOC 92 :=
  ⟨(cutback_curves_piecewise_monotone 60 60).1 (by norm_num [DRV_CUTBACK_SOC1]),
   (cutback_curves_piecewise_monotone 30 30).2.1 (by norm_num [DRV_CUTBACK_SOC2])
     (by norm_num [DRV_CUTBACK_SOC1]),
   (cutback_curves_piecewise_monotone 10 10).2.2.1 (by norm_num)
     (by norm_num [DRV_CUTBACK_SOC2]),
   (cutback_curves_piecewise_monotone 10 60).2.2.2.1 (by norm_num) (by norm_num) (by norm_num),
   (cutback_curves_piecewise_monotone 50 50).2.2.2.2.1 (by norm_num [CHG_CUTBACK_SOC]),
   (cutback_curves_piecewise_monotone 95 95).2.2.2.2.2.1 (by norm_num [CHG_CUTBACK_SOC]),
   (cutback_curves_piecewise_monotone 92 95).2.2.2.2.2.2 (by norm_num [CHG_CUTBACK_SOC])
     (by norm_num)⟩

/-- C5: for each of max charge current, max drive power and max recup
power, the temperature-interpolated base value equals the 0 degC
calibration constant at and below 0 degC, the 20-degC-and-above constant
at and above 20 degC, and the exact linear interpolation in between. -/
theorem temp_interpolation_exact (t : ℚ) :
    (t ≤ 0 →
      interpTemp MAX_CHARGE_CURRENT_0C MAX_CHARGE_CURRENT t = MAX_CHARGE_CURRENT_0C ∧
      interpTemp MAX_DRIVE_POWER_0C MAX_DRIVE_POWER t = MAX_DRIVE_POWER_0C ∧
      interpTemp MAX_RECUP_POWER_0C MAX_RECUP_POWER t = MAX_RECUP_POWER_0C) ∧
    (20 ≤ t →
      interpTemp MAX_CHARGE_CURRENT_0C MAX_CHARGE_CURRENT t = MAX_CHARGE_CURRENT ∧
      interpTemp MAX_DRIVE_POWER_0C MAX_DRIVE_POWER t = MAX_DRIVE_POWER ∧
      interpTemp MAX_RECUP_POWER_0C MAX_RECUP_POWER t = MAX_RECUP_POWER) ∧
    (0 < t → t < 20 →
      interpTemp MAX_CHARGE_CURRENT_0C MAX_CHARGE_CURRENT t
          = MAX_CHARGE_CURRENT_0C + (MAX_CHARGE_CURRENT - MAX_CHARGE_CURRENT_0C) * t / 20 ∧
      interpTemp MAX_DRIVE_POWER_0C MAX_DRIVE_POWER t
          = MAX_DRIVE_POWER_0C + (MAX_DRIVE_POWER - MAX_DRIVE_POWER_0C) * t / 20 ∧
      interpTemp MAX_RECUP_POWER_0C MAX_RECUP_POWER t
          = MAX_RECUP_POWER_0C + (MAX_RECUP_POWER - MAX_RECUP_POWER_0C) * t / 20) := by
  unfold interpTemp
  refine ⟨?_, ?_, ?_⟩
  · intro h
    refine ⟨?_, ?_, ?_⟩ <;> (split_ifs <;> first | rfl | linarith)
  · intro h
    refine ⟨?_, ?_, ?_⟩ <;> (split_ifs <;> first | rfl | linarith)
  · intro h1 h2
    refine ⟨?_, ?_, ?_⟩ <;> (split_ifs <;> first | rfl | linarith)

/-- Witness for C5: the three interpolated bases evaluated at -5, 25 and
10 degC by instantiating the theorem; at 10 degC the drive base is the
midpoint of 7000 and 10000. -/
theorem temp_interpolation_exact_witness :
    interpTemp MAX_DRIVE_POWER_0C MAX_DRIVE_POWER (-5) = MAX_DRIVE_POWER_0C ∧
      interpTemp MAX_DRIVE_POWER_0C MAX_DRIVE_POWER 25 = MAX_DRIVE_POWER ∧
      interpTemp MAX_DRIVE_POWER_0C MAX_DRIVE_POWER 10
        = MAX_DRIVE_POWER_0C + (MAX_DRIVE_POWER - MAX_DRIVE_POWER_0C) * 10 / 20 ∧
      interpTemp MAX_CHARGE_CURRENT_0C MAX_CHARGE_CURRENT 10
        = MAX_CHARGE_CURRENT_0C + (MAX_CHARGE_CURRENT - MAX_CHARGE_CURRENT_0C) * 10 / 20 ∧
      interpTemp MAX_RECUP_POWER_0C MAX_RECUP_POWER 10
        = MAX_RECUP_POWER_0C + (MAX_RECUP_POWER - MAX_RECUP_POWER_0C) * 10 / 20 :=
  ⟨((temp_interpolation_exact (-5)).1 (by norm_num)).2.1,
   ((temp_interpolation_exact 25).2.1 (by norm_num)).2.1,
   ((temp_interpolation_exact 10).2.2 (by norm_num) (by norm_num)).2.1,
   ((temp_interpolation_exact 10).2.2 (by norm_num) (by norm_num)).1,
   ((temp_interpolation_exact 10).2.2 (by norm_num) (by norm_num)).2.2⟩

/-- C6: for every channel identity within the configured range the reader
returns exactly (rawCount times unitsPerCount minus baseOffset) times the
scale factor of the fixed per-channel table, a pure function of its
arguments, and it fails with invalidChannel if and only if the channel
identity is out of the configured range. -/
theorem channel_reader_contract (ch : Nat) (raw base : ℚ) :
    (∀ k, SCALE_VOLT.get? ch = some k →
      readChannel ch raw base = Except.ok ((raw * VPORT - base) * k)) ∧
    (readChannel ch raw base = Except.error BMSError.invalidChannel ↔ CELL_COUNT ≤ ch) := by
  have hlen : SCALE_VOLT.length = CELL_COUNT := rfl
  constructor
  · intro k hk
    unfold readChannel
    rw [hk]
  · unfold readChannel
    cases hk : SCALE_VOLT.get? ch with
    | some k =>
        have hlt : ¬ (CELL_COUNT ≤ ch) := by
          intro hc
          rw [List.get?_eq_none.mpr (hlen ▸ hc)] at hk
          cases hk
        simp [hlt]
    | none =>
        have hge : CELL_COUNT ≤ ch := hlen ▸ List.get?_eq_none.mp hk
        simp [hge]

/-- Witness for C6: channel 0 carries scale factor 1 and converts raw
count 512 with base offset 0 to 512 times VPORT; channel identity 16 is
out of the configured range of 16 cells and fails with invalidChannel. -/
theorem channel_reader_contract_witness :
    readChannel 0 512 0 = Except.ok ((512 * VPORT - 0) * 1) ∧
      readChannel 16 512 0 = Except.error BMSError.invalidChannel :=
  ⟨(channel_reader_contract 0 512 0).1 1 rfl,
   (channel_reader_contract 16 512 0).2.mpr (by norm_num [CELL_COUNT])⟩

/-- Counterexample for C7: the configured drive-mode and charge-mode
pack-current polarity constants do not differ; the claim that they do is
false on this configuration. -/
theorem curr_polarity_claim_false : ¬ (CURR_POLARITY_DRV ≠ CURR_POLARITY_CHG) := by
  decide

/-- C7 amended: the pack-current sign convention is set by a per-mode
polarity constant, but in this configuration both constants equal -1, so
the sign convention does not flip between drive and charge operation. -/
theorem curr_polarity_constants_equal :
    CURR_POLARITY_DRV = -1 ∧ CURR_POLARITY_CHG = -1 ∧
      CURR_POLARITY_DRV = CURR_POLARITY_CHG := by
  decide

/-- Counterexample for C8: the configured charge-mode minimum cell voltage
(2.3 V) is below, not above, the drive-mode minimum (2.4 V); the claim
that charging has a narrower floor is false on this configuration. -/
theorem charge_floor_claim_false : VMIN_CHG < VMIN_DRV ∧ ¬ (VMIN_DRV < VMIN_CHG) := by
  norm_num [VMIN_CHG, VMIN_DRV]

/-- C8 amended: in the configured safe absolute-cell-voltage ranges,
charging has a wider floor than discharging (the charge-mode minimum
2.3 V lies below the drive-mode minimum 2.4 V) while the maximum cell
voltage 3.5 V is shared between the two modes. -/
theorem charge_floor_below_drive_floor :
    VMIN_CHG = 2.3 ∧ VMIN_DRV = 2.4 ∧ VMIN_CHG < VMIN_DRV ∧
      VMAX_CHG = VMAX_DRV ∧ VMAX_DRV = 3.5 ∧
      vminOf Mode.charging < vminOf Mode.driving ∧
      vmaxOf Mode.charging = vmaxOf Mode.driving := by
  norm_num [VMIN_CHG, VMIN_DRV, VMAX_CHG, VMAX_DRV, vminOf, vmaxOf]

/-- Counterexample for C9: the tick pipeline is not idempotent as claimed.
From a state whose smoothed temperatures read 0 degC, freezing both
temperature inputs at 20 degC with wall-clock delta 0 and running the
pipeline twice, the second run emits a different PowerEnvelope than the
first (the temperature smoothing filter advances toward the frozen input,
moving the interpolated drive-power base). -/
theorem tick_second_run_differs :
    tickEnv (tickState stCold inWarm) inWarm ≠ tickEnv stCold inWarm := by
  intro h
  have h2 := congrArg PowerEnvelope.maxDrivePower h
  norm_num [tickEnv, tickState, tickTier, tickSpread, tickCells, tickAmb, tickTempF, tickTempR,
    tickBlend, tickTarget, tickVoltSOC, tickCoul, stCold, inWarm, cellsOK, smooth, SMOOTH_VOLT,
    SMOOTH_TEMP, listMin, listMax, listMean, voltSpreadTier, absVoltTier, absTempTier,
    tempDiffTier, classify3, tmax, SafetyTier.sev, vminOf, vmaxOf, VMIN_DRV, VMAX_DRV,
    VOLT_DIFF_WARN, VOLT_DIFF_ERROR, VOLT_DIFF_SHUTDOWN, TEMP_WARN, TEMP_ERROR, TEMP_SHUTDOWN,
    TEMP_DIFF_WARN, TEMP_DIFF_ERROR, TEMP_DIFF_SHUTDOWN, derate, interpTemp, drvCutback,
    chgCutbackBySOC, chgCutbackByTemp, MAX_DRIVE_POWER, MAX_DRIVE_POWER_0C, MAX_RECUP_POWER,
    MAX_RECUP_POWER_0C, MAX_CHARGE_CURRENT, MAX_CHARGE_CURRENT_0C, DRV_CUTBACK_SOC1,
    DRV_CUTBACK_SOC2, DRV_CUTBACK_LVL2, CHG_CUTBACK_SOC, CHG_CUTBACK_TEMP, CHG_CUTBACK_TEMPMAX,
    voltSOC, clampQ, blendTarget, socWindow, SOC_VOLT_PRIO_ABOVE, SOC_VOLT_PRIO_BELOW,
    SMOOTH_SOC_DOWN, SMOOTH_SOC_UP_DRV, SMOOTH_SOC_UP_CHG, coulombStep, polarityOf,
    CURR_POLARITY_DRV, CURR_POLARITY_CHG] at h2
  simp at h2
  norm_num at h2

/-- C9 amended: with wall-clock delta 0, if the frozen inputs are a fixed
point of the smoothing state (each input sample equals the corresponding
stored smoothed value and the blend target equals the current blended
SOC) and the SOC fields are within 0..100, running the tick pipeline a
second time with the identical frozen inputs produces a PowerEnvelope
identical to the first run; indeed the pipeline leaves the state itself
unchanged. -/
theorem tick_fixed_point_idempotent (s : PackState) (i : RawTick)
    (hc : i.cellSamples = s.cellVolts) (hf : i.tempFSample = s.tempF)
    (hr : i.tempRSample = s.tempR) (hdt : i.dt = 0)
    (hc0 : 0 ≤ s.coulSOC) (hc1 : s.coulSOC ≤ 100)
    (htg : tickTarget s i = s.blendSOC)
    (hb0 : 0 ≤ s.blendSOC) (hb1 : s.blendSOC ≤ 100) :
    tickState s i = s ∧ tickEnv (tickState s i) i = tickEnv s i := by
  have hcells : tickCells s i = s.cellVolts := by
    rw [tickCells, hc]
    exact map_smooth_self _ _
  have htf : tickTempF s i = s.tempF := by
    rw [tickTempF, hf, smooth_self]
  have htr : tickTempR s i = s.tempR := by
    rw [tickTempR, hr, smooth_self]
  have hcl : tickCoul s i = s.coulSOC := by
    rw [tickCoul, coulombStep, hdt]
    simp only [mul_zero, zero_div, sub_zero]
    exact clampQ_eq_self hc0 hc1
  have hbl : tickBlend s i = s.blendSOC := by
    rw [tickBlend, htg, smooth_self]
    exact clampQ_eq_self hb0 hb1
  have hst : tickState s i = s := by
    rw [tickState, hcells, htf, htr, hcl, hbl]
  exact ⟨hst, by rw [hst]⟩

/-- Witness for C9 amended: the healthy steady fixture is a smoothing
fixed point, and there the second run of the pipeline reproduces both the
state and the PowerEnvelope. -/
theorem tick_fixed_point_idempotent_witness :
    tickState stNorm inNorm = stNorm ∧
      tickEnv (tickState stNorm inNorm) inNorm = tickEnv stNorm inNorm := by
  have htg : tickTarget stNorm inNorm = stNorm.blendSOC := by
    norm_num [tickTarget, tickVoltSOC, tickCoul, tickCells, stNorm, inNorm, cellsOK, smooth,
      SMOOTH_VOLT, listMean, voltSOC, clampQ, blendTarget, SOC_VOLT_PRIO_ABOVE,
      SOC_VOLT_PRIO_BELOW, coulombStep, polarityOf, CURR_POLARITY_DRV, CURR_POLARITY_CHG,
      vminOf, vmaxOf, VMIN_DRV, VMAX_DRV]
  exact tick_fixed_point_idempotent stNorm inNorm rfl rfl rfl rfl (by norm_num [stNorm])
    (by norm_num [stNorm]) htg (by norm_num [stNorm]) (by norm_num [stNorm])

/-- C10: the per-cell voltage calibration table has exactly CELL_COUNT
entries, its first entry is exactly 1 (the first cell is read with no
divider scaling), every entry is strictly positive, and multiplication by
any table entry preserves the sign and the zero of the raw reading. -/
theorem scale_volt_table_wellformed :
    SCALE_VOLT.length = CELL_COUNT ∧
      SCALE_VOLT.get? 0 = some 1 ∧
      (∀ k ∈ SCALE_VOLT, 0 < k) ∧
      (∀ k ∈ SCALE_VOLT, ∀ x : ℚ, (0 < x → 0 < x * k) ∧ (x = 0 → x * k = 0)) := by
  have hpos : ∀ k ∈ SCALE_VOLT, (0:ℚ) < k := by
    intro k hk
    simp only [SCALE_VOLT, List.mem_cons, List.not_mem_nil, or_false] at hk
    rcases hk with rfl|rfl|rfl|rfl|rfl|rfl|rfl|rfl|rfl|rfl|rfl|rfl|rfl|rfl|rfl|rfl <;>
      norm_num [VDIV]
  refine ⟨rfl, rfl, hpos, fun k hk x => ⟨fun hx => mul_pos hx (hpos k hk), fun hx => by
    rw [hx, zero_mul]⟩⟩

/-- Witness for C10: instantiating the table facts at the first entry,
scale factor 1, with raw readings 2 and 0. -/
theorem scale_volt_table_wellformed_witness :
    (0:ℚ) < 1 ∧ (0:ℚ) < 2 * 1 ∧ (0:ℚ) * 1 = 0 := by
  have hm : (1:ℚ) ∈ SCALE_VOLT := by
    simp only [SCALE_VOLT]
    exact List.mem_cons_self _ _
  exact ⟨scale_volt_table_wellformed.2.2.1 1 hm,
    (scale_volt_table_wellformed.2.2.2 1 hm 2).1 (by norm_num),
    (scale_volt_table_wellformed.2.2.2 1 hm 0).2 rfl⟩

end TwizyBMS
